import Mathlib

/-!
Verification development for the Mira Maths question generator
(src/js/questionGenerator.js and src/js/utils.js).

Embedding conventions:
* JS numbers that hold operands, answers and difficulty values are modelled as `ℤ`;
  the JS `%` operator (truncated remainder) is `Int.tmod`.
* Every call to `Math.random()` reads the next element of an ambient stream
  `g : ℕ → ℚ`; functions take the stream together with the index of the first
  unread element and return the index of the next unread element.  A run of the
  real program corresponds to a stream whose elements all lie in `[0, 1)`
  (`ValidStream`).
* The `while (question === null && attempts < REPEAT_MAX)` loop is modelled by
  structural recursion on the remaining number of attempts (fuel `REPEAT_MAX`),
  which is exactly the bound the source imposes.
* `generateQuestions` pushes every accepted or fallback question both to
  `this.questionHistory` and to `questions`; within one call the two arrays
  always receive identical pushes, so a single accumulator serves as both.
  Each emitted question is tagged with a `Bool` that records whether it came
  from the fallback path (`true`) or from an accepted constrained attempt
  (`false`); the public result is the untagged list.
-/

/-- A question record, the shape returned by `generateSingleQuestion`:
operands, operation name, answer, and the three post-hoc fields
(`userAnswer`, `isCorrect` modelled as `Option` for JS `null`). -/
structure Question where
  num1 : ℤ
  num2 : ℤ
  operation : String
  answer : ℤ
  userAnswer : Option ℤ
  isCorrect : Option Bool
  timeElapsed : ℤ
deriving DecidableEq

namespace Utils

/-- The function `Utils.getRandomInt(min, max)` (src/js/utils.js) with the
`Math.random()` draw `r` passed explicitly:
`Math.floor(r * (max - min + 1)) + min`; the `Math.ceil(min)` and
`Math.floor(max)` on integer arguments are identities. -/
def getRandomInt (min max : ℤ) (r : ℚ) : ℤ :=
  ⌊r * ((max : ℚ) - (min : ℚ) + 1)⌋ + min

/-- The function `Utils.getOperationSymbol` (src/js/utils.js).  The
multiplication and division literals are the file's actual characters:
the bytes `E0 B8 A3 C2 97` (U+0E23, U+0097) and `E0 B8 A3 E0 B8 97`
(U+0E23, U+0E17), a charset corruption of `×` and `÷`. -/
def getOperationSymbol (operation : String) : String :=
  if operation = "addition" then "+"
  else if operation = "subtraction" then "-"
  else if operation = "multiplication" then "ร\u0097"
  else if operation = "division" then "รท"
  else "+"

end Utils

namespace QuestionGenerator

/-- The constant `REPEAT_MAX` of the `QuestionGenerator` object. -/
def REPEAT_MAX : ℕ := 20

/-- The method `selectTargetLevel(difficultyLevel)` with the single
`Math.random()` draw passed explicitly as `rand`. -/
def selectTargetLevel (difficultyLevel : ℤ) (rand : ℚ) : ℤ :=
  if difficultyLevel = 1 then
    if rand < 0.50 then 3 else if rand < 0.80 then 2 else 1
  else if difficultyLevel = 2 then
    if rand < 0.60 then 3 else if rand < 0.90 then 2 else 1
  else if difficultyLevel = 3 then
    if rand < 0.75 then 3 else if rand < 0.95 then 2 else 1
  else if difficultyLevel = 4 then
    if rand < 0.90 then 3 else if rand < 0.99 then 2 else 1
  else 3

/-- The method `getDifficultyLevel(question, maxNumber)`; `maxNumber` is a
parameter of the source function but is not read by its body. -/
def getDifficultyLevel (question : Question) (maxNumber : ℤ) : ℤ :=
  let num1 := question.num1
  let num2 := question.num2
  let operation := question.operation
  let answer := question.answer
  if operation = "multiplication" then
    if num1 < 3 ∨ num2 < 3 then 1
    else if num1 < 6 ∨ num2 < 6 then 2
    else 3
  else
    if (num1 ≤ 3 ∧ num2 ≤ 3) ∨ num1 ≤ 2 ∨ num2 ≤ 2 then 1
    else if (num1.tmod 10 = 0 ∧ num2.tmod 10 = 0) ∨ (num1 < 6 ∧ num2 < 6) then 2
    else if num1.tmod 10 = 0 ∨ num2.tmod 10 = 0 then 2
    else if operation = "addition" ∧ answer.tmod 10 = 0 then 2
    else if operation = "addition" ∧ (num1.tmod 10 = num2 ∨ num2.tmod 10 = num1) then 2
    else if operation = "subtraction" ∧ num1.tmod 10 = num2 then 2
    else if operation = "subtraction" ∧ answer ≤ 5 then 2
    else if operation = "subtraction" ∧ num1 - num2 ≤ 10 then 2
    else 3

/-- The method `formatQuestion(question)`: the template literal
`${num1} ${symbol} ${num2} =`. -/
def formatQuestion (question : Question) : String :=
  let symbol := Utils.getOperationSymbol question.operation
  toString question.num1 ++ " " ++ symbol ++ " " ++ toString question.num2 ++ " ="

/-- The helper `getOperands(maxNumber, difficulty, operation)` defined inside
`generateSingleQuestion`.  Draws are read from `g` starting at index `k`; the
second component is the index of the next unread draw.  Array literals in JS
evaluate left to right, so the first operand uses the earlier draw. -/
def getOperands (maxNumber difficulty : ℤ) (operation : String) (g : ℕ → ℚ) (k : ℕ) :
    (ℤ × ℤ) × ℕ :=
  let effectiveMax := if operation = "multiplication" ∨ operation = "division"
    then min maxNumber 10 else maxNumber
  if difficulty ≤ 2 then
    if g k < 0.5 then
      ((Utils.getRandomInt 1 9 (g (k+1)), Utils.getRandomInt 1 effectiveMax (g (k+2))), k+3)
    else
      ((Utils.getRandomInt 1 effectiveMax (g (k+1)), Utils.getRandomInt 1 9 (g (k+2))), k+3)
  else if difficulty ≤ 4 then
    if g k < 0.7 then
      ((Utils.getRandomInt 1 effectiveMax (g (k+1)),
        Utils.getRandomInt 1 effectiveMax (g (k+2))), k+3)
    else if g (k+1) < 0.5 then
      ((Utils.getRandomInt 1 9 (g (k+2)), Utils.getRandomInt 1 effectiveMax (g (k+3))), k+4)
    else
      ((Utils.getRandomInt 1 effectiveMax (g (k+2)), Utils.getRandomInt 1 9 (g (k+3))), k+4)
  else
    ((Utils.getRandomInt 1 effectiveMax (g k), Utils.getRandomInt 1 effectiveMax (g (k+1))), k+2)

/-- The method `generateSingleQuestion(operation, maxNumber)`;
`this.currentDifficulty` is passed explicitly as `currentDifficulty`.
The unrecognized-operation default falls back to addition behaviour and
relabels the operation as addition, as in the source's `default` case. -/
def generateSingleQuestion (operation : String) (maxNumber currentDifficulty : ℤ)
    (g : ℕ → ℚ) (k : ℕ) : Question × ℕ :=
  if operation = "addition" then
    let res := getOperands maxNumber currentDifficulty operation g k
    (⟨res.1.1, res.1.2, "addition", res.1.1 + res.1.2, none, none, 0⟩, res.2)
  else if operation = "subtraction" then
    let res := getOperands maxNumber currentDifficulty operation g k
    let num1 := if res.1.2 > res.1.1 then res.1.2 else res.1.1
    let num2 := if res.1.2 > res.1.1 then res.1.1 else res.1.2
    (⟨num1, num2, "subtraction", num1 - num2, none, none, 0⟩, res.2)
  else if operation = "multiplication" then
    let res := getOperands maxNumber currentDifficulty operation g k
    (⟨res.1.1, res.1.2, "multiplication", res.1.1 * res.1.2, none, none, 0⟩, res.2)
  else if operation = "division" then
    let divMax := min maxNumber 10
    let res :=
      if currentDifficulty ≤ 2 then
        if g k < 0.5 then
          ((Utils.getRandomInt 2 5 (g (k+1)), Utils.getRandomInt 1 divMax (g (k+2))), k+3)
        else
          ((Utils.getRandomInt 2 divMax (g (k+1)), Utils.getRandomInt 1 5 (g (k+2))), k+3)
      else if currentDifficulty ≤ 4 then
        if g k < 0.7 then
          ((Utils.getRandomInt 2 divMax (g (k+1)), Utils.getRandomInt 1 divMax (g (k+2))), k+3)
        else if g (k+1) < 0.5 then
          ((Utils.getRandomInt 2 5 (g (k+2)), Utils.getRandomInt 1 divMax (g (k+3))), k+4)
        else
          ((Utils.getRandomInt 2 divMax (g (k+2)), Utils.getRandomInt 1 5 (g (k+3))), k+4)
      else
        ((Utils.getRandomInt 2 divMax (g k), Utils.getRandomInt 1 divMax (g (k+1))), k+2)
    (⟨res.1.1 * res.1.2, res.1.1, "division", res.1.2, none, none, 0⟩, res.2)
  else
    let res := getOperands maxNumber currentDifficulty "addition" g k
    (⟨res.1.1, res.1.2, "addition", res.1.1 + res.1.2, none, none, 0⟩, res.2)

/-- The duplicate test of `generateQuestions`:
`this.questionHistory.some(q => q.num1 === c.num1 && q.num2 === c.num2 && q.operation === c.operation)`. -/
def isDuplicate (questionHistory : List Question) (candidateQuestion : Question) : Bool :=
  questionHistory.any fun q =>
    q.num1 == candidateQuestion.num1 && q.num2 == candidateQuestion.num2 &&
      q.operation == candidateQuestion.operation

/-- The similarity test of `generateQuestions`: when the history is non-empty,
compare the candidate with the last accepted question (same operation and a
shared operand value). -/
def isSimilarToLast (questionHistory : List Question) (candidateQuestion : Question) : Bool :=
  match questionHistory.getLast? with
  | none => false
  | some lastQuestion =>
      lastQuestion.operation == candidateQuestion.operation &&
        (lastQuestion.num1 == candidateQuestion.num1 ||
         lastQuestion.num1 == candidateQuestion.num2 ||
         lastQuestion.num2 == candidateQuestion.num1 ||
         lastQuestion.num2 == candidateQuestion.num2)

/-- The body of the `while (question === null && attempts < REPEAT_MAX)` loop of
`generateQuestions`, as recursion on the remaining attempts.  One iteration
draws the operation index, samples a candidate, classifies it, draws a fresh
target level, and applies the three rejection tests in source order. -/
def attemptLoop (operations : List String) (maxNumber difficultyLevel : ℤ)
    (questionHistory : List Question) (g : ℕ → ℚ) :
    ℕ → ℕ → Option Question × ℕ
  | 0, k => (none, k)
  | fuel + 1, k =>
    let operation := operations.getD (⌊g k * (operations.length : ℚ)⌋.toNat) ""
    let res := generateSingleQuestion operation maxNumber difficultyLevel g (k+1)
    let candidateQuestion := res.1
    let k1 := res.2
    let questionLevel := getDifficultyLevel candidateQuestion maxNumber
    let targetLevel := selectTargetLevel difficultyLevel (g k1)
    if questionLevel ≠ targetLevel then
      attemptLoop operations maxNumber difficultyLevel questionHistory g fuel (k1+1)
    else if isDuplicate questionHistory candidateQuestion then
      attemptLoop operations maxNumber difficultyLevel questionHistory g fuel (k1+1)
    else if isSimilarToLast questionHistory candidateQuestion then
      attemptLoop operations maxNumber difficultyLevel questionHistory g fuel (k1+1)
    else
      (some candidateQuestion, k1+1)

/-- The `for (let i = 0; i < questionCount; i++)` loop of `generateQuestions`.
Each slot runs `attemptLoop` with fuel `REPEAT_MAX`; on exhaustion the fallback
draws one unconditioned sample.  Every emitted question is appended to the
single accumulator (which plays the role of both `questionHistory` and
`questions`, since the source pushes to both in lockstep), tagged `true`
exactly when it came from the fallback. -/
def genLoop (operations : List String) (maxNumber difficultyLevel : ℤ) (g : ℕ → ℚ) :
    ℕ → List (Question × Bool) → ℕ → List (Question × Bool) × ℕ
  | 0, acc, k => (acc, k)
  | count + 1, acc, k =>
    match attemptLoop operations maxNumber difficultyLevel (acc.map Prod.fst) g
      REPEAT_MAX k with
    | (some question, k1) =>
        genLoop operations maxNumber difficultyLevel g count (acc ++ [(question, false)]) k1
    | (none, k1) =>
        let operation := operations.getD (⌊g k1 * (operations.length : ℚ)⌋.toNat) ""
        let res := generateSingleQuestion operation maxNumber difficultyLevel g (k1+1)
        genLoop operations maxNumber difficultyLevel g count (acc ++ [(res.1, true)]) res.2

/-- The settings record destructured at the top of `generateQuestions`. -/
structure Settings where
  operations : List String
  maxNumber : ℤ
  questionCount : ℕ
  difficultyLevel : ℤ

/-- The mutable state of the `QuestionGenerator` object that `generateQuestions`
touches: `this.questionHistory` and `this.currentDifficulty`. -/
structure GenState where
  questionHistory : List Question
  currentDifficulty : ℤ
deriving DecidableEq

/-- The method `generateQuestions(settings)` as a function of the object state
and the random stream: on an empty operation list it throws (`Except.error`)
before touching the state; otherwise it resets the history, stores the
difficulty, runs the slot loop and returns the questions (the final history
equals the returned list, as the source pushes to both arrays together). -/
def generateQuestions (st : GenState) (settings : Settings) (g : ℕ → ℚ) :
    Except String (List Question) × GenState :=
  if settings.operations.length = 0 then
    (Except.error "Please select at least one operation", st)
  else
    let run := (genLoop settings.operations settings.maxNumber settings.difficultyLevel g
      settings.questionCount [] 0).1
    let questions := run.map Prod.fst
    (Except.ok questions, ⟨questions, settings.difficultyLevel⟩)

/-- A random stream is valid when every element lies in `[0, 1)`, the range of
`Math.random()`. -/
def ValidStream (g : ℕ → ℚ) : Prop := ∀ n, 0 ≤ g n ∧ g n < 1

/-- The three post-hoc fields of a freshly generated question. -/
def QFields (q : Question) : Prop :=
  q.userAnswer = none ∧ q.isCorrect = none ∧ q.timeElapsed = 0

/-- Arithmetic invariant of a freshly generated question (for a configured
maximum of `maxNumber`): non-negative answer, ordered operands with exact
difference for subtraction, and exact multiple with bounded factors for
division. -/
def QInv (maxNumber : ℤ) (q : Question) : Prop :=
  0 ≤ q.answer ∧
  (q.operation = "subtraction" → q.num2 ≤ q.num1 ∧ q.answer = q.num1 - q.num2) ∧
  (q.operation = "division" →
    q.num1 = q.num2 * q.answer ∧ 2 ≤ q.num2 ∧ q.num2 ≤ max 5 (min maxNumber 10) ∧
      1 ≤ q.answer ∧ q.answer ≤ max 5 (min maxNumber 10))

/-- Identity of the `(operand1, operand2, operation)` triple, the duplicate
criterion of the batch loop. -/
def TripleEq (a b : Question) : Prop :=
  a.num1 = b.num1 ∧ a.num2 = b.num2 ∧ a.operation = b.operation

/-- Similarity of two questions: same operation and at least one shared operand
value, the adjacency criterion of the batch loop. -/
def Similar (a b : Question) : Prop :=
  a.operation = b.operation ∧
    (a.num1 = b.num1 ∨ a.num1 = b.num2 ∨ a.num2 = b.num1 ∨ a.num2 = b.num2)

/-- Classifier written from the claim's rule table verbatim, for comparison
with `getDifficultyLevel`; the addition tier-2 pattern here is the table's
"the ones-digits of the two operands match". -/
def classifyTable (question : Question) (maxOperand : ℤ) : ℤ :=
  if question.operation = "multiplication" then
    if question.num1 < 3 ∨ question.num2 < 3 then 1
    else if question.num1 < 6 ∨ question.num2 < 6 then 2
    else 3
  else
    if (question.num1 ≤ 3 ∧ question.num2 ≤ 3) ∨ question.num1 ≤ 2 ∨ question.num2 ≤ 2 then 1
    else if (question.num1.tmod 10 = 0 ∧ question.num2.tmod 10 = 0) ∨
        (question.num1 < 6 ∧ question.num2 < 6) ∨
        (question.num1.tmod 10 = 0 ∨ question.num2.tmod 10 = 0) ∨
        (question.operation = "addition" ∧ question.answer.tmod 10 = 0) ∨
        (question.operation = "addition" ∧ question.num1.tmod 10 = question.num2.tmod 10) ∨
        (question.operation = "subtraction" ∧ question.num1.tmod 10 = question.num2) ∨
        (question.operation = "subtraction" ∧ question.answer ≤ 5) ∨
        (question.operation = "subtraction" ∧ question.num1 - question.num2 ≤ 10) then 2
    else 3

/-- Classifier written from the rule table with the addition ones-digit pattern
amended to what the code tests: operand2 equals operand1's ones digit, or
operand1 equals operand2's ones digit. -/
def classifyTableAmended (question : Question) (maxOperand : ℤ) : ℤ :=
  if question.operation = "multiplication" then
    if question.num1 < 3 ∨ question.num2 < 3 then 1
    else if question.num1 < 6 ∨ question.num2 < 6 then 2
    else 3
  else
    if (question.num1 ≤ 3 ∧ question.num2 ≤ 3) ∨ question.num1 ≤ 2 ∨ question.num2 ≤ 2 then 1
    else if (question.num1.tmod 10 = 0 ∧ question.num2.tmod 10 = 0) ∨
        (question.num1 < 6 ∧ question.num2 < 6) ∨
        (question.num1.tmod 10 = 0 ∨ question.num2.tmod 10 = 0) ∨
        (question.operation = "addition" ∧ question.answer.tmod 10 = 0) ∨
        (question.operation = "addition" ∧
          (question.num1.tmod 10 = question.num2 ∨ question.num2.tmod 10 = question.num1)) ∨
        (question.operation = "subtraction" ∧ question.num1.tmod 10 = question.num2) ∨
        (question.operation = "subtraction" ∧ question.answer ≤ 5) ∨
        (question.operation = "subtraction" ∧ question.num1 - question.num2 ≤ 10) then 2
    else 3

/-- Range of `Utils.getRandomInt lo hi r` for a draw `r ∈ [0, 1)`: at least `lo`
whenever `lo - 1 ≤ hi` (the source calls it with an empty range `hi = lo - 1`
when `divMax < 2`, where it returns `lo`), and at most `max hi lo`. -/
theorem getRandomInt_bounds (lo hi : ℤ) (r : ℚ) (h0 : 0 ≤ r) (h1 : r < 1)
    (h : lo - 1 ≤ hi) :
    lo ≤ Utils.getRandomInt lo hi r ∧ Utils.getRandomInt lo hi r ≤ max hi lo := by
  have hcast : (lo : ℚ) - 1 ≤ (hi : ℚ) := by exact_mod_cast h
  constructor
  · have hn : (0:ℚ) ≤ (hi : ℚ) - lo + 1 := by linarith
    have := Int.floor_nonneg.2 (mul_nonneg h0 hn)
    unfold Utils.getRandomInt
    omega
  · rcases le_or_lt lo hi with hle | hlt
    · have hle' : (lo : ℚ) ≤ (hi : ℚ) := by exact_mod_cast hle
      have hn : (0:ℚ) < (hi : ℚ) - lo + 1 := by linarith
      have hfl : ⌊r * ((hi : ℚ) - lo + 1)⌋ < hi - lo + 1 := by
        rw [Int.floor_lt]
        push_cast
        nlinarith
      unfold Utils.getRandomInt
      omega
    · have hlt' : (hi : ℚ) + 1 ≤ (lo : ℚ) := by exact_mod_cast hlt
      have hn : (hi : ℚ) - lo + 1 ≤ 0 := by linarith
      have := Int.floor_nonpos (mul_nonpos_of_nonneg_of_nonpos h0 hn)
      unfold Utils.getRandomInt
      omega

/-- Both operands returned by `getOperands` are at least 1 whenever the stream
is valid and `maxNumber ≥ 1`. -/
theorem getOperands_one_le (maxNumber difficulty : ℤ) (operation : String)
    (g : ℕ → ℚ) (k : ℕ) (hg : ValidStream g) (hmax : 1 ≤ maxNumber) :
    1 ≤ (getOperands maxNumber difficulty operation g k).1.1 ∧
      1 ≤ (getOperands maxNumber difficulty operation g k).1.2 := by
  have hB : ∀ (m : ℤ), 1 ≤ m → ∀ n, 1 ≤ Utils.getRandomInt 1 m (g n) := fun m hm n =>
    (getRandomInt_bounds 1 m (g n) (hg n).1 (hg n).2 (by omega)).1
  have h10 : (1:ℤ) ≤ min maxNumber 10 := by omega
  simp only [getOperands]
  split_ifs <;> exact ⟨hB _ (by omega) _, hB _ (by omega) _⟩





/-- Every branch of `generateSingleQuestion` returns the post-hoc fields unset,
for any stream and any bounds. -/
theorem generateSingleQuestion_fields (operation : String)
    (maxNumber currentDifficulty : ℤ) (g : ℕ → ℚ) (k : ℕ) :
    QFields (generateSingleQuestion operation maxNumber currentDifficulty g k).1 := by
  simp only [generateSingleQuestion, QFields]
  split_ifs <;> simp

/-- Every question returned by `generateSingleQuestion` satisfies `QInv` when
the stream is valid and `maxNumber ≥ 1`. -/
theorem generateSingleQuestion_inv (operation : String)
    (maxNumber currentDifficulty : ℤ) (g : ℕ → ℚ) (k : ℕ)
    (hg : ValidStream g) (hmax : 1 ≤ maxNumber) :
    QInv maxNumber (generateSingleQuestion operation maxNumber currentDifficulty g k).1 := by
  have hdx : (1:ℤ) ≤ min maxNumber 10 := by omega
  have hb25 : ∀ n, 2 ≤ Utils.getRandomInt 2 5 (g n) ∧ Utils.getRandomInt 2 5 (g n) ≤ 5 := by
    intro n
    have := getRandomInt_bounds 2 5 (g n) (hg n).1 (hg n).2 (by norm_num)
    omega
  have hb2d : ∀ n, 2 ≤ Utils.getRandomInt 2 (min maxNumber 10) (g n) ∧
      Utils.getRandomInt 2 (min maxNumber 10) (g n) ≤ max (min maxNumber 10) 2 := fun n =>
    getRandomInt_bounds 2 _ (g n) (hg n).1 (hg n).2 (by omega)
  have hb1d : ∀ n, 1 ≤ Utils.getRandomInt 1 (min maxNumber 10) (g n) ∧
      Utils.getRandomInt 1 (min maxNumber 10) (g n) ≤ max (min maxNumber 10) 1 := fun n =>
    getRandomInt_bounds 1 _ (g n) (hg n).1 (hg n).2 (by omega)
  have hb15 : ∀ n, 1 ≤ Utils.getRandomInt 1 5 (g n) ∧ Utils.getRandomInt 1 5 (g n) ≤ 5 := by
    intro n
    have := getRandomInt_bounds 1 5 (g n) (hg n).1 (hg n).2 (by norm_num)
    omega
  simp only [generateSingleQuestion]
  by_cases h1 : operation = "addition"
  · rw [if_pos h1]
    obtain ⟨ha1, ha2⟩ := getOperands_one_le maxNumber currentDifficulty operation g k hg hmax
    exact ⟨by dsimp only; omega, by simp, by simp⟩
  rw [if_neg h1]
  by_cases h2 : operation = "subtraction"
  · rw [if_pos h2]
    refine ⟨?_, ?_, by simp⟩
    · dsimp only
      split_ifs <;> omega
    · intro _
      dsimp only
      constructor
      · split_ifs <;> omega
      · split_ifs <;> rfl
  rw [if_neg h2]
  by_cases h3 : operation = "multiplication"
  · rw [if_pos h3]
    obtain ⟨ha1, ha2⟩ := getOperands_one_le maxNumber currentDifficulty operation g k hg hmax
    refine ⟨?_, by simp, by simp⟩
    dsimp only
    nlinarith
  rw [if_neg h3]
  by_cases h4 : operation = "division"
  · rw [if_pos h4]
    refine ⟨?_, by simp, fun _ => ⟨rfl, ?_, ?_, ?_, ?_⟩⟩ <;>
      · dsimp only
        split_ifs <;> dsimp only <;>
          first
          | (have hx := hb25 (k+1); have hy := hb1d (k+2); omega)
          | (have hx := hb2d (k+1); have hy := hb15 (k+2); omega)
          | (have hx := hb2d (k+1); have hy := hb1d (k+2); omega)
          | (have hx := hb25 (k+2); have hy := hb1d (k+3); omega)
          | (have hx := hb2d (k+2); have hy := hb15 (k+3); omega)
          | (have hx := hb2d k; have hy := hb1d (k+1); omega)
  rw [if_neg h4]
  obtain ⟨ha1, ha2⟩ :=
    getOperands_one_le maxNumber currentDifficulty "addition" g k hg hmax
  exact ⟨by dsimp only; omega, by simp, by simp⟩

theorem isDuplicate_eq_false (questionHistory : List Question) (c : Question) :
    isDuplicate questionHistory c = false ↔ ∀ q ∈ questionHistory, ¬ TripleEq q c := by
  simp [isDuplicate, TripleEq, and_assoc]

theorem isSimilarToLast_eq_false (questionHistory : List Question) (c : Question) :
    isSimilarToLast questionHistory c = false ↔
      ∀ q ∈ questionHistory.getLast?, ¬ Similar q c := by
  unfold isSimilarToLast
  cases questionHistory.getLast? with
  | none => simp
  | some lastQuestion => simp [Similar, and_assoc]

/-- A question accepted by `attemptLoop` was produced by
`generateSingleQuestion` and passed the duplicate and similarity tests
against the history it was checked with. -/
theorem attemptLoop_accept (operations : List String) (maxNumber difficultyLevel : ℤ)
    (questionHistory : List Question) (g : ℕ → ℚ) :
    ∀ (fuel k k1 : ℕ) (q : Question),
      attemptLoop operations maxNumber difficultyLevel questionHistory g fuel k =
        (some q, k1) →
      (∃ (kop k0 : ℕ),
          (generateSingleQuestion
            (operations.getD (⌊g kop * (operations.length : ℚ)⌋.toNat) "")
            maxNumber difficultyLevel g k0).1 = q) ∧
        isDuplicate questionHistory q = false ∧
        isSimilarToLast questionHistory q = false := by
  intro fuel
  induction fuel with
  | zero =>
    intro k k1 q h
    exact absurd h (by simp [attemptLoop])
  | succ n ih =>
    intro k k1 q h
    rw [attemptLoop] at h
    split_ifs at h with hlvl hdup hsim
    · exact ih _ _ _ h
    · exact ih _ _ _ h
    · exact ih _ _ _ h
    · rw [Prod.mk.injEq] at h
      obtain ⟨hq, hk⟩ := h
      rw [Option.some.injEq] at hq
      subst hq
      exact ⟨⟨_, _, rfl⟩, Bool.not_eq_true _ ▸ hdup, Bool.not_eq_true _ ▸ hsim⟩

/-- Length of the batch: each slot appends exactly one question. -/
theorem genLoop_length (operations : List String) (maxNumber difficultyLevel : ℤ)
    (g : ℕ → ℚ) :
    ∀ (count : ℕ) (acc : List (Question × Bool)) (k : ℕ),
      ((genLoop operations maxNumber difficultyLevel g count acc k).1).length =
        acc.length + count := by
  intro count
  induction count with
  | zero => intro acc k; simp [genLoop]
  | succ n ih =>
    intro acc k
    rw [genLoop]
    rcases hA : attemptLoop operations maxNumber difficultyLevel (acc.map Prod.fst) g
      REPEAT_MAX k with ⟨oq, k1⟩
    cases oq with
    | some q => rw [ih]; simp; omega
    | none => rw [ih]; simp; omega

/-- Any property satisfied by every output of `generateSingleQuestion` (for the
run's bounds and stream) and by every question already in the accumulator holds
for every question in the final batch. -/
theorem genLoop_forall (P : Question → Prop) (operations : List String)
    (maxNumber difficultyLevel : ℤ) (g : ℕ → ℚ)
    (hP : ∀ (kop k : ℕ),
      P (generateSingleQuestion
        (operations.getD (⌊g kop * (operations.length : ℚ)⌋.toNat) "")
        maxNumber difficultyLevel g k).1) :
    ∀ (count : ℕ) (acc : List (Question × Bool)) (k : ℕ),
      (∀ p ∈ acc, P p.1) →
      ∀ p ∈ (genLoop operations maxNumber difficultyLevel g count acc k).1, P p.1 := by
  intro count
  induction count with
  | zero => intro acc k hacc; simpa [genLoop] using hacc
  | succ n ih =>
    intro acc k hacc
    rw [genLoop]
    rcases hA : attemptLoop operations maxNumber difficultyLevel (acc.map Prod.fst) g
      REPEAT_MAX k with ⟨oq, k1⟩
    cases oq with
    | some q =>
      refine ih _ _ ?_
      intro p hp
      rcases List.mem_append.1 hp with hp | hp
      · exact hacc p hp
      · obtain ⟨⟨kop, k0, hgen⟩, -, -⟩ := attemptLoop_accept _ _ _ _ _ _ _ _ _ hA
        rcases List.mem_singleton.1 hp with rfl
        exact hgen ▸ hP kop k0
    | none =>
      refine ih _ _ ?_
      intro p hp
      rcases List.mem_append.1 hp with hp | hp
      · exact hacc p hp
      · rcases List.mem_singleton.1 hp with rfl
        exact hP _ _

/-- The batch loop never emits a question with the triple of an earlier one
unless it came from the fallback: pairwise over the tagged run, any later
non-fallback question differs in triple from every earlier question. -/
theorem genLoop_pairwise (operations : List String) (maxNumber difficultyLevel : ℤ)
    (g : ℕ → ℚ) :
    ∀ (count : ℕ) (acc : List (Question × Bool)) (k : ℕ),
      acc.Pairwise (fun a b => b.2 = false → ¬ TripleEq a.1 b.1) →
      ((genLoop operations maxNumber difficultyLevel g count acc k).1).Pairwise
        (fun a b => b.2 = false → ¬ TripleEq a.1 b.1) := by
  intro count
  induction count with
  | zero => intro acc k hacc; simpa [genLoop] using hacc
  | succ n ih =>
    intro acc k hacc
    rw [genLoop]
    rcases hA : attemptLoop operations maxNumber difficultyLevel (acc.map Prod.fst) g
      REPEAT_MAX k with ⟨oq, k1⟩
    cases oq with
    | some q =>
      refine ih _ _ ?_
      obtain ⟨-, hdup, -⟩ := attemptLoop_accept _ _ _ _ _ _ _ _ _ hA
      have hnew := (isDuplicate_eq_false _ _).1 hdup
      refine List.pairwise_append.2 ⟨hacc, List.pairwise_singleton _ _, ?_⟩
      intro a ha b hb
      rcases List.mem_singleton.1 hb with rfl
      exact fun _ => hnew a.1 (List.mem_map_of_mem _ ha)
    | none =>
      refine ih _ _ ?_
      refine List.pairwise_append.2 ⟨hacc, List.pairwise_singleton _ _, ?_⟩
      intro a ha b hb
      rcases List.mem_singleton.1 hb with rfl
      intro hfalse
      exact absurd hfalse (by simp)

/-- The batch loop never emits a non-fallback question similar to its immediate
predecessor: chained over the tagged run. -/
theorem genLoop_chain (operations : List String) (maxNumber difficultyLevel : ℤ)
    (g : ℕ → ℚ) :
    ∀ (count : ℕ) (acc : List (Question × Bool)) (k : ℕ),
      acc.Chain' (fun a b => b.2 = false → ¬ Similar a.1 b.1) →
      ((genLoop operations maxNumber difficultyLevel g count acc k).1).Chain'
        (fun a b => b.2 = false → ¬ Similar a.1 b.1) := by
  intro count
  induction count with
  | zero => intro acc k hacc; simpa [genLoop] using hacc
  | succ n ih =>
    intro acc k hacc
    rw [genLoop]
    rcases hA : attemptLoop operations maxNumber difficultyLevel (acc.map Prod.fst) g
      REPEAT_MAX k with ⟨oq, k1⟩
    cases oq with
    | some q =>
      refine ih _ _ ?_
      obtain ⟨-, -, hsim⟩ := attemptLoop_accept _ _ _ _ _ _ _ _ _ hA
      have hlast := (isSimilarToLast_eq_false _ _).1 hsim
      refine List.chain'_append.2 ⟨hacc, List.chain'_singleton _, ?_⟩
      intro a ha b hb
      rcases List.mem_singleton.1 (by simpa using hb) with rfl
      refine fun _ => hlast a.1 ?_
      have ha' : acc.getLast? = some a := Option.mem_def.mp ha
      rw [List.getLast?_map, ha']
      rfl
    | none =>
      refine ih _ _ ?_
      refine List.chain'_append.2 ⟨hacc, List.chain'_singleton _, ?_⟩
      intro a ha b hb
      rcases List.mem_singleton.1 (by simpa using hb) with rfl
      intro hfalse
      exact absurd hfalse (by simp)

/-- With at least one operation selected, `generateQuestions` succeeds and
returns the untagged slot-loop run, which also becomes the new history. -/
theorem generateQuestions_ok (st : GenState) (settings : Settings) (g : ℕ → ℚ)
    (hops : settings.operations ≠ []) :
    generateQuestions st settings g =
      (Except.ok (((genLoop settings.operations settings.maxNumber
          settings.difficultyLevel g settings.questionCount [] 0).1).map Prod.fst),
        ⟨((genLoop settings.operations settings.maxNumber settings.difficultyLevel g
          settings.questionCount [] 0).1).map Prod.fst, settings.difficultyLevel⟩) := by
  unfold generateQuestions
  rw [if_neg (by simpa [List.length_eq_zero] using hops)]



/-- C2 counterexample: on the addition question 16 + 26 = 42 the code returns
tier 3 while the claim's rule table (matching ones digits 6 and 6) gives
tier 2, so `getDifficultyLevel` does not implement the claimed table. -/
theorem getDifficultyLevel_table_counterexample :
    getDifficultyLevel ⟨16, 26, "addition", 42, none, none, 0⟩ 20 = 3 ∧
      classifyTable ⟨16, 26, "addition", 42, none, none, 0⟩ 20 = 2 := by
  constructor <;> decide

/-- An else-if chain returning 2 at each guard collapses to a single guard on
the disjunction of the conditions. -/
theorem ite_chain_two (c1 c2 c3 c4 c5 c6 c7 : Prop)
    [Decidable c1] [Decidable c2] [Decidable c3] [Decidable c4] [Decidable c5]
    [Decidable c6] [Decidable c7] :
    (if c1 then (2:ℤ) else if c2 then 2 else if c3 then 2 else if c4 then 2
      else if c5 then 2 else if c6 then 2 else if c7 then 2 else 3) =
    (if c1 ∨ c2 ∨ c3 ∨ c4 ∨ c5 ∨ c6 ∨ c7 then 2 else 3) := by
  by_cases h1 : c1
  · simp [h1]
  by_cases h2 : c2
  · simp [h1, h2]
  by_cases h3 : c3
  · simp [h1, h2, h3]
  by_cases h4 : c4
  · simp [h1, h2, h3, h4]
  by_cases h5 : c5
  · simp [h1, h2, h3, h4, h5]
  by_cases h6 : c6
  · simp [h1, h2, h3, h4, h5, h6]
  by_cases h7 : c7
  · simp [h1, h2, h3, h4, h5, h6, h7]
  simp [h1, h2, h3, h4, h5, h6, h7]

/-- C2 (amended): `getDifficultyLevel` implements the §4.2 rule table with the
addition ones-digit item read as "operand2 equals operand1's ones digit or
operand1 equals operand2's ones digit"; moreover the two concrete instances of
the claim hold: 2 + 9 is tier 1 and 6 × 7 is tier 3. -/
theorem getDifficultyLevel_matches_amended_table :
    (∀ (question : Question) (maxOperand : ℤ),
      getDifficultyLevel question maxOperand = classifyTableAmended question maxOperand) ∧
    (∀ (answer : ℤ) (ua : Option ℤ) (ic : Option Bool) (te : ℤ),
      getDifficultyLevel ⟨2, 9, "addition", answer, ua, ic, te⟩ 20 = 1 ∧
        getDifficultyLevel ⟨6, 7, "multiplication", answer, ua, ic, te⟩ 20 = 3) := by
  constructor
  · intro q m
    simp only [getDifficultyLevel, classifyTableAmended]
    by_cases hM : q.operation = "multiplication"
    · rw [if_pos hM, if_pos hM]
    rw [if_neg hM, if_neg hM]
    by_cases hT : (q.num1 ≤ 3 ∧ q.num2 ≤ 3) ∨ q.num1 ≤ 2 ∨ q.num2 ≤ 2
    · rw [if_pos hT, if_pos hT]
    rw [if_neg hT, if_neg hT]
    rw [ite_chain_two]
    exact if_congr (by rw [or_assoc]) rfl rfl
  · intro a ua ic te
    exact ⟨by norm_num [getDifficultyLevel], by norm_num [getDifficultyLevel]⟩

/-- C5: with an empty operations list, `generateQuestions` raises the error
synchronously before any sampling: the result is the `InvalidSettings` error,
the generator state is unchanged, and the outcome is independent of the random
stream. -/
theorem generateQuestions_empty_operations (st : GenState) (settings : Settings)
    (g : ℕ → ℚ) (hops : settings.operations = []) :
    (generateQuestions st settings g).1 =
        Except.error "Please select at least one operation" ∧
      (generateQuestions st settings g).2 = st ∧
      ∀ g', generateQuestions st settings g = generateQuestions st settings g' := by
  unfold generateQuestions
  rw [hops]
  simp

/-- C5 witness at a concrete empty-operations settings value. -/
theorem generateQuestions_empty_operations_witness :
    (Settings.mk [] 5 3 2).operations = [] ∧
      ((generateQuestions ⟨[], 1⟩ (Settings.mk [] 5 3 2) (fun _ => 0)).1 =
          Except.error "Please select at least one operation" ∧
        (generateQuestions ⟨[], 1⟩ (Settings.mk [] 5 3 2) (fun _ => 0)).2 = ⟨[], 1⟩ ∧
        ∀ g', generateQuestions ⟨[], 1⟩ (Settings.mk [] 5 3 2) (fun _ => 0) =
          generateQuestions ⟨[], 1⟩ (Settings.mk [] 5 3 2) g') :=
  ⟨rfl, generateQuestions_empty_operations ⟨[], 1⟩ (Settings.mk [] 5 3 2) (fun _ => 0) rfl⟩

/-- C8: `selectTargetLevel`, as a function of the uniform draw `rand ∈ [0,1)`,
realises exactly the tier3/tier2/tier1 weights 50/30/20 (dial 1), 60/30/10
(dial 2), 75/20/5 (dial 3), 90/9/1 (dial 4) and 100/0/0 (dial 5): each tier's
preimage is the half-open interval whose width is its weight, and dial 5
returns 3 for every draw. -/
theorem selectTargetLevel_weights (rand : ℚ) (h0 : 0 ≤ rand) (h1 : rand < 1) :
    ((selectTargetLevel 1 rand = 3 ↔ rand < 50/100) ∧
      (selectTargetLevel 1 rand = 2 ↔ 50/100 ≤ rand ∧ rand < (50+30)/100) ∧
      (selectTargetLevel 1 rand = 1 ↔ (50+30)/100 ≤ rand)) ∧
    ((selectTargetLevel 2 rand = 3 ↔ rand < 60/100) ∧
      (selectTargetLevel 2 rand = 2 ↔ 60/100 ≤ rand ∧ rand < (60+30)/100) ∧
      (selectTargetLevel 2 rand = 1 ↔ (60+30)/100 ≤ rand)) ∧
    ((selectTargetLevel 3 rand = 3 ↔ rand < 75/100) ∧
      (selectTargetLevel 3 rand = 2 ↔ 75/100 ≤ rand ∧ rand < (75+20)/100) ∧
      (selectTargetLevel 3 rand = 1 ↔ (75+20)/100 ≤ rand)) ∧
    ((selectTargetLevel 4 rand = 3 ↔ rand < 90/100) ∧
      (selectTargetLevel 4 rand = 2 ↔ 90/100 ≤ rand ∧ rand < (90+9)/100) ∧
      (selectTargetLevel 4 rand = 1 ↔ (90+9)/100 ≤ rand)) ∧
    selectTargetLevel 5 rand = 3 := by
  refine ⟨⟨?_, ?_, ?_⟩, ⟨?_, ?_, ?_⟩, ⟨?_, ?_, ?_⟩, ⟨?_, ?_, ?_⟩, ?_⟩ <;>
    · simp only [selectTargetLevel]
      norm_num
      all_goals
        split_ifs <;>
          norm_num <;>
          first
            | linarith
            | (constructor <;> linarith)
            | (intros; linarith)

/-- C8 witness at the concrete draw 1/4. -/
theorem selectTargetLevel_weights_witness :
    (0 ≤ (1/4 : ℚ) ∧ (1/4 : ℚ) < 1) ∧
      (((selectTargetLevel 1 (1/4) = 3 ↔ (1/4 : ℚ) < 50/100) ∧
        (selectTargetLevel 1 (1/4) = 2 ↔ 50/100 ≤ (1/4 : ℚ) ∧ (1/4 : ℚ) < (50+30)/100) ∧
        (selectTargetLevel 1 (1/4) = 1 ↔ (50+30)/100 ≤ (1/4 : ℚ))) ∧
      ((selectTargetLevel 2 (1/4) = 3 ↔ (1/4 : ℚ) < 60/100) ∧
        (selectTargetLevel 2 (1/4) = 2 ↔ 60/100 ≤ (1/4 : ℚ) ∧ (1/4 : ℚ) < (60+30)/100) ∧
        (selectTargetLevel 2 (1/4) = 1 ↔ (60+30)/100 ≤ (1/4 : ℚ))) ∧
      ((selectTargetLevel 3 (1/4) = 3 ↔ (1/4 : ℚ) < 75/100) ∧
        (selectTargetLevel 3 (1/4) = 2 ↔ 75/100 ≤ (1/4 : ℚ) ∧ (1/4 : ℚ) < (75+20)/100) ∧
        (selectTargetLevel 3 (1/4) = 1 ↔ (75+20)/100 ≤ (1/4 : ℚ))) ∧
      ((selectTargetLevel 4 (1/4) = 3 ↔ (1/4 : ℚ) < 90/100) ∧
        (selectTargetLevel 4 (1/4) = 2 ↔ 90/100 ≤ (1/4 : ℚ) ∧ (1/4 : ℚ) < (90+9)/100) ∧
        (selectTargetLevel 4 (1/4) = 1 ↔ (90+9)/100 ≤ (1/4 : ℚ))) ∧
      selectTargetLevel 5 (1/4) = 3) :=
  ⟨⟨by norm_num, by norm_num⟩, selectTargetLevel_weights (1/4) (by norm_num) (by norm_num)⟩

/-- C10: `selectTargetLevel` is total over every integer dial, always returning
an element of the tier set, and every dial outside 1–4 (0, negatives, values
above 5) takes the default case and returns 3, like dial 5. -/
theorem selectTargetLevel_total_and_default :
    ∀ (difficultyLevel : ℤ) (rand : ℚ),
      (selectTargetLevel difficultyLevel rand = 1 ∨
        selectTargetLevel difficultyLevel rand = 2 ∨
        selectTargetLevel difficultyLevel rand = 3) ∧
      (difficultyLevel ≠ 1 → difficultyLevel ≠ 2 → difficultyLevel ≠ 3 →
        difficultyLevel ≠ 4 → selectTargetLevel difficultyLevel rand = 3) := by
  intro d rand
  unfold selectTargetLevel
  constructor
  · split_ifs <;> simp
  · intro hd1 hd2 hd3 hd4
    rw [if_neg hd1, if_neg hd2, if_neg hd3, if_neg hd4]

/-- C10 witness at the out-of-range dial 0 with draw 1/3. -/
theorem selectTargetLevel_total_and_default_witness :
    (selectTargetLevel 0 (1/3) = 1 ∨ selectTargetLevel 0 (1/3) = 2 ∨
      selectTargetLevel 0 (1/3) = 3) ∧ selectTargetLevel 0 (1/3) = 3 :=
  ⟨(selectTargetLevel_total_and_default 0 (1/3)).1,
    (selectTargetLevel_total_and_default 0 (1/3)).2
      (by decide) (by decide) (by decide) (by decide)⟩

/-- C9 evaluation: addition and subtraction render with the canonical symbols,
but the source's multiplication and division symbol strings are the corrupted
characters U+0E23 U+0097 and U+0E23 U+0E17 rather than the canonical `×` and
`÷` that the claim states. -/
theorem formatQuestion_eval :
    formatQuestion ⟨4, 3, "addition", 7, none, none, 0⟩ = "4 + 3 =" ∧
    formatQuestion ⟨7, 2, "subtraction", 5, none, none, 0⟩ = "7 - 2 =" ∧
    formatQuestion ⟨4, 3, "multiplication", 12, none, none, 0⟩ = "4 ร\u0097 3 =" ∧
    formatQuestion ⟨4, 3, "multiplication", 12, none, none, 0⟩ ≠ "4 × 3 =" ∧
    formatQuestion ⟨6, 2, "division", 3, none, none, 0⟩ = "6 รท 2 =" ∧
    formatQuestion ⟨6, 2, "division", 3, none, none, 0⟩ ≠ "6 ÷ 2 =" := by
  refine ⟨rfl, rfl, rfl, ?_, rfl, ?_⟩ <;> decide

/-- C4: for any settings with a non-empty operations list, `generateQuestions`
returns (the bounded attempt loop plus unconditional fallback terminate by
construction) exactly `questionCount` questions in generation order, each with
`userAnswer` and `isCorrect` unset and `timeElapsed = 0`, for every random
stream. -/
theorem generateQuestions_count_and_fields (st : GenState) (settings : Settings)
    (g : ℕ → ℚ) (hops : settings.operations ≠ []) :
    ∃ qs, (generateQuestions st settings g).1 = Except.ok qs ∧
      qs.length = settings.questionCount ∧
      ∀ q ∈ qs, q.userAnswer = none ∧ q.isCorrect = none ∧ q.timeElapsed = 0 := by
  refine ⟨((genLoop settings.operations settings.maxNumber settings.difficultyLevel g
      settings.questionCount [] 0).1).map Prod.fst, ?_, ?_, ?_⟩
  · rw [generateQuestions_ok st settings g hops]
  · rw [List.length_map, genLoop_length]
    simp
  · intro q hq
    rcases List.mem_map.1 hq with ⟨p, hp, rfl⟩
    exact genLoop_forall QFields settings.operations settings.maxNumber
      settings.difficultyLevel g
      (fun kop k => generateSingleQuestion_fields _ _ _ g k)
      settings.questionCount [] 0 (by simp) p hp

/-- C4 witness at a concrete settings value and the constant-zero stream. -/
theorem generateQuestions_count_and_fields_witness :
    (Settings.mk ["addition"] 20 3 2).operations ≠ [] ∧
      ∃ qs, (generateQuestions ⟨[], 1⟩ (Settings.mk ["addition"] 20 3 2)
          (fun _ => 0)).1 = Except.ok qs ∧
        qs.length = 3 ∧
        ∀ q ∈ qs, q.userAnswer = none ∧ q.isCorrect = none ∧ q.timeElapsed = 0 :=
  ⟨by simp,
    generateQuestions_count_and_fields ⟨[], 1⟩ (Settings.mk ["addition"] 20 3 2)
      (fun _ => 0) (by simp)⟩

/-- C1: for any well-formed settings (non-empty operations, positive maximum
operand as in the spec's Settings type) and any valid random stream, every
question in the returned batch has a non-negative answer; subtraction
questions have `operand1 ≥ operand2` (operands swapped when sampled reversed)
with `answer = operand1 - operand2`, and division questions satisfy
`operand1 = operand2 × answer` exactly. -/
theorem generateQuestions_answer_invariants (st : GenState) (settings : Settings)
    (g : ℕ → ℚ) (hg : ValidStream g) (hops : settings.operations ≠ [])
    (hmax : 1 ≤ settings.maxNumber) (qs : List Question)
    (hqs : (generateQuestions st settings g).1 = Except.ok qs) :
    ∀ q ∈ qs, 0 ≤ q.answer ∧
      (q.operation = "subtraction" → q.num2 ≤ q.num1 ∧ q.answer = q.num1 - q.num2) ∧
      (q.operation = "division" → q.num1 = q.num2 * q.answer) := by
  rw [generateQuestions_ok st settings g hops] at hqs
  rw [Except.ok.injEq] at hqs
  subst hqs
  intro q hq
  rcases List.mem_map.1 hq with ⟨p, hp, rfl⟩
  have h := genLoop_forall (QInv settings.maxNumber) settings.operations
    settings.maxNumber settings.difficultyLevel g
    (fun kop k => generateSingleQuestion_inv _ _ _ g k hg hmax)
    settings.questionCount [] 0 (by simp) p hp
  exact ⟨h.1, h.2.1, fun hd => (h.2.2 hd).1⟩

/-- C1 witness: the constant-1/2 stream on a one-question division batch. -/
theorem generateQuestions_answer_invariants_witness :
    ValidStream (fun _ => (1:ℚ)/2) ∧
      ∀ q ∈ [(⟨36, 6, "division", 6, none, none, 0⟩ : Question)], 0 ≤ q.answer ∧
        (q.operation = "subtraction" → q.num2 ≤ q.num1 ∧ q.answer = q.num1 - q.num2) ∧
        (q.operation = "division" → q.num1 = q.num2 * q.answer) :=
  ⟨fun n => by norm_num,
    generateQuestions_answer_invariants ⟨[], 1⟩ (Settings.mk ["division"] 10 1 3)
      (fun _ => (1:ℚ)/2) (fun n => by norm_num) (by simp) (by norm_num)
      [⟨36, 6, "division", 6, none, none, 0⟩] (by with_unfolding_all rfl)⟩

/-- With a single selected operation and a valid draw, the operation index
`Math.floor(Math.random() * operations.length)` is 0, so that operation is
drawn. -/
theorem singleton_op_drawn (op : String) (g : ℕ → ℚ) (hg : ValidStream g) (kop : ℕ) :
    ([op] : List String).getD (⌊g kop * (([op] : List String).length : ℚ)⌋.toNat) "" = op := by
  have hfl : ⌊g kop * (([op] : List String).length : ℚ)⌋ = 0 := by
    simp only [List.length_singleton, Nat.cast_one, mul_one]
    rw [Int.floor_eq_zero_iff]
    exact ⟨(hg kop).1, (hg kop).2⟩
  rw [hfl]
  rfl

/-- The division branch labels its result "division". -/
theorem generateSingleQuestion_division_operation (maxNumber currentDifficulty : ℤ)
    (g : ℕ → ℚ) (k : ℕ) :
    (generateSingleQuestion "division" maxNumber currentDifficulty g k).1.operation =
      "division" := by
  simp [generateSingleQuestion]

/-- C3 (amended): a division-only batch with `maxOperand = 10`,
`questionCount = 5` and dial 3 has exactly 5 questions, each an exact division
(`operand1 % operand2 = 0`) with `operand2 ≤ 10` and `operand1 ≤ 100`; the
claimed bound `operand1 ≤ 10` fails (see the counterexample). -/
theorem generateQuestions_division_batch (st : GenState) (g : ℕ → ℚ)
    (hg : ValidStream g) (qs : List Question)
    (hqs : (generateQuestions st (Settings.mk ["division"] 10 5 3) g).1 = Except.ok qs) :
    qs.length = 5 ∧
      ∀ q ∈ qs, q.num1.tmod q.num2 = 0 ∧ q.num2 ≤ 10 ∧ q.num1 ≤ 100 := by
  rw [generateQuestions_ok st _ g (by simp)] at hqs
  rw [Except.ok.injEq] at hqs
  subst hqs
  constructor
  · rw [List.length_map, genLoop_length]
    rfl
  · intro q hq
    rcases List.mem_map.1 hq with ⟨p, hp, rfl⟩
    refine genLoop_forall
      (fun c => c.num1.tmod c.num2 = 0 ∧ c.num2 ≤ 10 ∧ c.num1 ≤ 100)
      ["division"] 10 3 g ?_ 5 [] 0 (by simp) p hp
    intro kop k
    rw [singleton_op_drawn "division" g hg kop]
    obtain ⟨-, -, hdiv⟩ := generateSingleQuestion_inv "division" 10 3 g k hg (by norm_num)
    obtain ⟨hmul, h2, hub, h1a, hua⟩ :=
      hdiv (generateSingleQuestion_division_operation 10 3 g k)
    have hub' : (generateSingleQuestion "division" 10 3 g k).1.num2 ≤ 10 := by omega
    have hua' : (generateSingleQuestion "division" 10 3 g k).1.answer ≤ 10 := by omega
    refine ⟨?_, hub', ?_⟩
    · rw [hmul]
      exact Int.mul_tmod_right _ _
    · rw [hmul]
      nlinarith [h2, h1a, hub', hua']

/-- C3 counterexample: with the constant-99/100 stream every slot exhausts its
20 attempts and falls back to the sample 50 ÷ 10 = 5, whose first operand
exceeds the claimed bound `operand1 ≤ 10`. -/
theorem generateQuestions_division_op1_counterexample :
    (generateQuestions ⟨[], 1⟩ (Settings.mk ["division"] 10 5 3) (fun _ => 99/100)).1 =
      Except.ok [⟨50, 10, "division", 5, none, none, 0⟩,
        ⟨50, 10, "division", 5, none, none, 0⟩, ⟨50, 10, "division", 5, none, none, 0⟩,
        ⟨50, 10, "division", 5, none, none, 0⟩, ⟨50, 10, "division", 5, none, none, 0⟩] ∧
    ¬ ∀ q ∈ [(⟨50, 10, "division", 5, none, none, 0⟩ : Question),
        ⟨50, 10, "division", 5, none, none, 0⟩, ⟨50, 10, "division", 5, none, none, 0⟩,
        ⟨50, 10, "division", 5, none, none, 0⟩, ⟨50, 10, "division", 5, none, none, 0⟩],
      q.num1 ≤ 10 := by
  constructor
  · with_unfolding_all rfl
  · decide

/-- C3 witness: the amended batch properties hold on the concrete constant
99/100 run. -/
theorem generateQuestions_division_batch_witness :
    ValidStream (fun _ => (99:ℚ)/100) ∧
      ([⟨50, 10, "division", 5, none, none, 0⟩,
        ⟨50, 10, "division", 5, none, none, 0⟩, ⟨50, 10, "division", 5, none, none, 0⟩,
        ⟨50, 10, "division", 5, none, none, 0⟩,
        (⟨50, 10, "division", 5, none, none, 0⟩ : Question)].length = 5 ∧
      ∀ q ∈ [⟨50, 10, "division", 5, none, none, 0⟩,
        ⟨50, 10, "division", 5, none, none, 0⟩, ⟨50, 10, "division", 5, none, none, 0⟩,
        ⟨50, 10, "division", 5, none, none, 0⟩,
        (⟨50, 10, "division", 5, none, none, 0⟩ : Question)],
        q.num1.tmod q.num2 = 0 ∧ q.num2 ≤ 10 ∧ q.num1 ≤ 100) :=
  ⟨fun n => by norm_num,
    generateQuestions_division_batch ⟨[], 1⟩ (fun _ => (99:ℚ)/100)
      (fun n => by norm_num)
      [⟨50, 10, "division", 5, none, none, 0⟩,
        ⟨50, 10, "division", 5, none, none, 0⟩, ⟨50, 10, "division", 5, none, none, 0⟩,
        ⟨50, 10, "division", 5, none, none, 0⟩, ⟨50, 10, "division", 5, none, none, 0⟩]
      (by with_unfolding_all rfl)⟩

/-- C6: in any batch in which no slot used the fallback, no two questions share
the identical `(operand1, operand2, operation)` triple; and on the pathological
input (`maxOperand = 3`, single operation, `questionCount = 50`, dial 5, the
constant-zero stream) `generateQuestions` still returns (no throw, no
divergence) a 50-question batch in which the fallback path was taken. -/
theorem generateQuestions_no_duplicate_triples (st : GenState) (operations : List String)
    (maxNumber difficultyLevel : ℤ) (questionCount : ℕ) (g : ℕ → ℚ)
    (hops : operations ≠ []) :
    ((generateQuestions st
        (Settings.mk operations maxNumber questionCount difficultyLevel) g).1 =
          Except.ok (((genLoop operations maxNumber difficultyLevel g
            questionCount [] 0).1).map Prod.fst) ∧
      ((∀ p ∈ (genLoop operations maxNumber difficultyLevel g questionCount [] 0).1,
          p.2 = false) →
        (((genLoop operations maxNumber difficultyLevel g
            questionCount [] 0).1).map Prod.fst).Pairwise
          fun a b => ¬ TripleEq a b)) ∧
    ((generateQuestions ⟨[], 1⟩ (Settings.mk ["addition"] 3 50 5) (fun _ => 0)).1 =
        Except.ok (((genLoop ["addition"] 3 5 (fun _ => 0) 50 [] 0).1).map Prod.fst) ∧
      (((genLoop ["addition"] 3 5 (fun _ => 0) 50 [] 0).1).map Prod.fst).length = 50 ∧
      ((genLoop ["addition"] 3 5 (fun _ => 0) 50 [] 0).1.any fun p => p.2) = true) := by
  refine ⟨⟨?_, ?_⟩, ?_, ?_, ?_⟩
  · rw [generateQuestions_ok st _ g hops]
  · intro htags
    have hP := genLoop_pairwise operations maxNumber difficultyLevel g
      questionCount [] 0 (by simp)
    rw [List.pairwise_map]
    exact List.Pairwise.imp_of_mem (fun ha hb hr => hr (htags _ hb)) hP
  · rw [generateQuestions_ok _ _ _ (by simp)]
  · rw [List.length_map, genLoop_length]
    rfl
  · with_unfolding_all rfl

/-- C6 witness: the general part instantiated at the same pathological input. -/
theorem generateQuestions_no_duplicate_triples_witness :
    (["addition"] : List String) ≠ [] ∧
    (((generateQuestions ⟨[], 1⟩ (Settings.mk ["addition"] 3 50 5) (fun _ => 0)).1 =
          Except.ok (((genLoop ["addition"] 3 5 (fun _ => 0) 50 [] 0).1).map Prod.fst) ∧
      ((∀ p ∈ (genLoop ["addition"] 3 5 (fun _ => 0) 50 [] 0).1, p.2 = false) →
        (((genLoop ["addition"] 3 5 (fun _ => 0) 50 [] 0).1).map Prod.fst).Pairwise
          fun a b => ¬ TripleEq a b)) ∧
    ((generateQuestions ⟨[], 1⟩ (Settings.mk ["addition"] 3 50 5) (fun _ => 0)).1 =
        Except.ok (((genLoop ["addition"] 3 5 (fun _ => 0) 50 [] 0).1).map Prod.fst) ∧
      (((genLoop ["addition"] 3 5 (fun _ => 0) 50 [] 0).1).map Prod.fst).length = 50 ∧
      ((genLoop ["addition"] 3 5 (fun _ => 0) 50 [] 0).1.any fun p => p.2) = true)) :=
  ⟨by simp,
    generateQuestions_no_duplicate_triples ⟨[], 1⟩ ["addition"] 3 5 50 (fun _ => 0)
      (by simp)⟩

/-- C7: adjacent questions of a batch never share both the operation and an
operand value unless one of the pair was accepted through the
fallback-exhaustion path. -/
theorem generateQuestions_adjacent_similarity (st : GenState) (operations : List String)
    (maxNumber difficultyLevel : ℤ) (questionCount : ℕ) (g : ℕ → ℚ)
    (hops : operations ≠ []) :
    (generateQuestions st
        (Settings.mk operations maxNumber questionCount difficultyLevel) g).1 =
      Except.ok (((genLoop operations maxNumber difficultyLevel g
        questionCount [] 0).1).map Prod.fst) ∧
    ((genLoop operations maxNumber difficultyLevel g questionCount [] 0).1).Chain'
      (fun a b => a.2 = false → b.2 = false → ¬ Similar a.1 b.1) := by
  refine ⟨?_, ?_⟩
  · rw [generateQuestions_ok st _ g hops]
  · have h := genLoop_chain operations maxNumber difficultyLevel g questionCount [] 0
      (by simp)
    exact h.imp fun _ _ hr _ hb => hr hb

/-- C7 witness at a concrete two-question addition batch. -/
theorem generateQuestions_adjacent_similarity_witness :
    (["addition", "subtraction"] : List String) ≠ [] ∧
    ((generateQuestions ⟨[], 1⟩ (Settings.mk ["addition", "subtraction"] 20 2 2)
        (fun _ => (1:ℚ)/3)).1 =
      Except.ok (((genLoop ["addition", "subtraction"] 20 2 (fun _ => (1:ℚ)/3)
        2 [] 0).1).map Prod.fst) ∧
    ((genLoop ["addition", "subtraction"] 20 2 (fun _ => (1:ℚ)/3) 2 [] 0).1).Chain'
      (fun a b => a.2 = false → b.2 = false → ¬ Similar a.1 b.1)) :=
  ⟨by simp,
    generateQuestions_adjacent_similarity ⟨[], 1⟩ ["addition", "subtraction"] 20 2 2
      (fun _ => (1:ℚ)/3) (by simp)⟩

end QuestionGenerator
